import Mathlib

/-!
Shallow embedding of `custom_components/motion_blinds/__init__.py` from the
HA-motion-blinds repository, together with theorems settling the spec claims.

The file models the integration's lifecycle functions (`setup`,
`async_setup_entry`, `async_update_data`, `update_gateway`,
`async_unload_entry`) over an explicit state of the domain data dictionary
`hass.data[DOMAIN]`.  Python dictionaries are modelled as insertion-ordered
association lists, exceptions as explicit result values, and the side effects
relevant to the claims (`Start_listen` / `Stop_listen` calls, device-registry
registrations, dispatcher sends, executor jobs) as recorded events.
-/

namespace MotionBlinds

/-- Constant from the integration's `const.py` module, which is not under
`src/`.  The claims use these constants symbolically; the concrete string
values are irrelevant to every theorem below. -/
def DOMAIN : String := "motion_blinds"

/-- Constant from `const.py` (not under `src/`): the fixed manufacturer name
put into the device record. -/
def MANUFACTURER : String := "Motion Blinds"

/-- Constant from `const.py` (not under `src/`): the name of the single
custom service. -/
def SERVICE_SET_ABSOLUTE_POSITION : String := "set_absolute_position"

/-- Constant from `const.py` (not under `src/`): the service-data key for the
absolute position. -/
def ATTR_ABSOLUTE_POSITION : String := "absolute_position"

/-- Constant from `const.py` (not under `src/`): the service-data key for the
width. -/
def ATTR_WIDTH : String := "width"

/-- Constant from the host platform's device registry:
`dr.CONNECTION_NETWORK_MAC`, the tag of a MAC-address connection. -/
def CONNECTION_NETWORK_MAC : String := "mac"

/-- A gateway device object supplied by the external `motionblinds` library:
the fields of it that `__init__.py` reads (`mac`, `protocol`,
`device_list` in iteration order of `.values()`). -/
structure MotionGateway where
  mac : String
  protocol : String
  device_list : List String
deriving DecidableEq, Repr

/-- A config entry: the fields of `config_entries.ConfigEntry` that
`__init__.py` reads. -/
structure ConfigEntry where
  entry_id : String
  title : String
  unique_id : String
  host : String
  api_key : String
deriving DecidableEq, Repr

/-- Configuration of the `DataUpdateCoordinator` constructed in
`async_setup_entry` (lines 115–123): the name and the polling interval,
`timedelta(seconds=900)`, recorded in seconds. -/
structure DataUpdateCoordinatorCfg where
  name : String
  update_interval_seconds : Nat
deriving DecidableEq, Repr

/-- The per-entry record stored at `hass.data[DOMAIN][entry.entry_id]`:
`{KEY_GATEWAY: motion_gateway, KEY_COORDINATOR: coordinator}`. -/
structure EntryData where
  gateway : MotionGateway
  coordinator : DataUpdateCoordinatorCfg
deriving DecidableEq, Repr

/-- The state of the domain data dictionary `hass.data[DOMAIN]`.
`multicast` holds the identity of the `MotionMulticast` listener object
stored under `KEY_MULTICAST_LISTENER` (`none` when the key is absent);
`entries` is the insertion-ordered dictionary of config-entry records;
`nextListenerId` numbers the `MotionMulticast()` objects as they are
constructed, so that object identity (sharing) is observable. -/
structure MBState where
  multicast : Option Nat
  entries : List (String × EntryData)
  nextListenerId : Nat
deriving DecidableEq, Repr

/-- The initial state: `hass.data` has no entry for `DOMAIN` yet (equivalently,
`hass.data.setdefault(DOMAIN, {})` yields an empty dictionary). -/
def mbInit : MBState := ⟨none, [], 0⟩

/-- `len(hass.data[DOMAIN])`: the multicast-listener key, when present, counts
as one dictionary entry besides the config-entry records. -/
def domainLen (st : MBState) : Nat :=
  (if st.multicast.isSome then 1 else 0) + st.entries.length

/-- Python dictionary assignment `d[k] = v`: overwrite in place when the key
exists, append otherwise (insertion order preserved). -/
def dictInsert (d : List (String × EntryData)) (k : String) (v : EntryData) :
    List (String × EntryData) :=
  if d.any (fun p => p.1 == k) then
    d.map (fun p => if p.1 == k then (k, v) else p)
  else
    d ++ [(k, v)]

/-- Python dictionary `d.pop(k)` without a default: remove the key when
present, raise `KeyError` (here: `none`) otherwise. -/
def dictPop (d : List (String × EntryData)) (k : String) :
    Option (List (String × EntryData)) :=
  if d.any (fun p => p.1 == k) then
    some (d.filter (fun p => p.1 != k))
  else
    none

/-- One synchronous `Update()` call issued inside the executor job. -/
inductive UpdateCall where
  | gateway
  | blind (id : String)
deriving DecidableEq, Repr

/-- `update_gateway` (lines 102–106): calls `motion_gateway.Update()` first and
then `blind.Update()` for each blind in `motion_gateway.device_list.values()`,
in order.  The emitted trace lists the synchronous update calls as the loop
performs them. -/
def update_gateway (g : MotionGateway) : List UpdateCall :=
  g.device_list.foldl (fun acc blind => acc ++ [UpdateCall.blind blind])
    [UpdateCall.gateway]

/-- The `__cause__` attached to a raised exception by `raise ... from ...`
(one level of chaining, which is all this code creates). -/
inductive PyExcCause where
  | noCause
  | socketTimeout
  | otherExc (tag : Nat)
deriving DecidableEq, Repr

/-- Python exceptions that can cross the boundaries modelled here. -/
inductive PyExc where
  | socketTimeout
  | asyncioTimeout (cause : PyExcCause)
  | configEntryNotReady
  | other (tag : Nat)
deriving DecidableEq, Repr

/-- Outcome of one poll of `async_update_data`: the executor jobs submitted
(each job given by the trace of synchronous update calls it runs) and the
result returned to the coordinator. -/
structure PollOutcome where
  executorJobs : List (List UpdateCall)
  result : Except PyExc Unit

/-- `async_update_data` (lines 108–113): submits `update_gateway` as a single
`async_add_executor_job`; `updResult` is what that job returns or raises.
A `socket.timeout` is re-raised as `AsyncioTimeoutError` with the socket
timeout as its cause (`raise ... from socket_timeout`); any other outcome
passes through unchanged. -/
def async_update_data (g : MotionGateway) (updResult : Except PyExc Unit) :
    PollOutcome where
  executorJobs := [update_gateway g]
  result :=
    match updResult with
    | .error .socketTimeout => .error (.asyncioTimeout .socketTimeout)
    | r => r

/-- The device record created by `device_registry.async_get_or_create`
(lines 134–142). -/
structure DeviceRecord where
  config_entry_id : String
  connections : List (String × String)
  identifiers : List (String × String)
  manufacturer : String
  name : String
  model : String
  sw_version : String
deriving DecidableEq, Repr

/-- Everything observable about one invocation of `async_setup_entry`:
the resulting domain-data state, how many times `multicast.Start_listen`
was invoked during the call, whether `ConfigEntryNotReady` was raised,
the identity of the multicast listener handed to `ConnectMotionGateway`,
the coordinator constructed, and the device records registered. -/
structure SetupResult where
  state : MBState
  startListenCalls : Nat
  raisedNotReady : Bool
  multicastUsed : Nat
  coordinator : Option DataUpdateCoordinatorCfg
  deviceRecords : List DeviceRecord
deriving DecidableEq, Repr

/-- `async_setup_entry` (lines 70–149).  The dictionary `setdefault` for the
multicast listener reuses the stored object or constructs a fresh one; when
the domain data then holds exactly one key, `Start_listen` runs.  The gateway
connection is abstracted by `connectResult`: `none` models
`async_connect_gateway` returning false, upon which the code raises
`ConfigEntryNotReady`; `some g` models a successful connection yielding
gateway object `g`.  On success the entry record, the coordinator and the
device record are created. -/
def async_setup_entry (st : MBState) (entry : ConfigEntry)
    (connectResult : Option MotionGateway) : SetupResult :=
  let mc : Nat × MBState :=
    match st.multicast with
    | some m => (m, st)
    | none =>
        (st.nextListenerId,
         { st with multicast := some st.nextListenerId,
                   nextListenerId := st.nextListenerId + 1 })
  let multicastId := mc.1
  let st1 := mc.2
  let startCalls := if domainLen st1 = 1 then 1 else 0
  match connectResult with
  | none =>
      { state := st1, startListenCalls := startCalls, raisedNotReady := true,
        multicastUsed := multicastId, coordinator := none, deviceRecords := [] }
  | some g =>
      let coordinator : DataUpdateCoordinatorCfg :=
        { name := entry.title, update_interval_seconds := 900 }
      let st2 :=
        { st1 with
            entries := dictInsert st1.entries entry.entry_id
              { gateway := g, coordinator := coordinator } }
      let record : DeviceRecord :=
        { config_entry_id := entry.entry_id,
          connections := [(CONNECTION_NETWORK_MAC, g.mac)],
          identifiers := [(DOMAIN, entry.unique_id)],
          manufacturer := MANUFACTURER,
          name := entry.title,
          model := "Wi-Fi bridge",
          sw_version := g.protocol }
      { state := st2, startListenCalls := startCalls, raisedNotReady := false,
        multicastUsed := multicastId, coordinator := some coordinator,
        deviceRecords := [record] }

/-- A sequence of `async_setup_entry` invocations, threading the domain-data
state and accumulating the total number of `Start_listen` invocations. -/
def runSetups (st : MBState) (ops : List (ConfigEntry × Option MotionGateway)) :
    MBState × Nat :=
  ops.foldl
    (fun acc op =>
      let r := async_setup_entry acc.1 op.1 op.2
      (r.state, acc.2 + r.startListenCalls))
    (st, 0)

/-- Everything observable about one invocation of `async_unload_entry`:
the resulting state, the number of `Stop_listen` invocations, and the
returned `unload_ok`. -/
structure UnloadResult where
  state : MBState
  stopListenCalls : Nat
  unload_ok : Bool
deriving DecidableEq, Repr

/-- `async_unload_entry` (lines 152–174).  `platformResults` are the values
returned by the per-platform `async_forward_entry_unload` calls gathered at
lines 156–163; `unload_ok` is their conjunction.  When `unload_ok`, the
entry record is popped (a `KeyError`, modelled as `none`, if absent); then,
when exactly one key remains, the multicast listener is popped (again a
possible `KeyError`) and `Stop_listen` runs. -/
def async_unload_entry (st : MBState) (entryId : String)
    (platformResults : List Bool) : Option UnloadResult :=
  let unload_ok := platformResults.all id
  let st1opt : Option MBState :=
    if unload_ok then
      (dictPop st.entries entryId).map (fun es => { st with entries := es })
    else
      some st
  match st1opt with
  | none => none
  | some st1 =>
      if domainLen st1 = 1 then
        match st1.multicast with
        | some _ =>
            some { state := { st1 with multicast := none },
                   stopListenCalls := 1, unload_ok := unload_ok }
        | none => none
      else
        some { state := st1, stopListenCalls := 0, unload_ok := unload_ok }

/-- A sequence of `async_unload_entry` invocations, threading the state and
accumulating the total number of `Stop_listen` invocations; `none` as soon
as any invocation raises. -/
def runUnloads : MBState → List (String × List Bool) → Option (MBState × Nat)
  | st, [] => some (st, 0)
  | st, (e, pr) :: rest =>
      match async_unload_entry st e pr with
      | none => none
      | some r =>
          (runUnloads r.state rest).map (fun p => (p.1, r.stopListenCalls + p.2))

/-- A value stored in a service call's data dictionary. -/
inductive JVal where
  | int (n : Int)
  | str (s : String)
  | strs (l : List String)
deriving DecidableEq, Repr

/-- Python dictionary assignment on a service-data dictionary
(`data["method"] = ...`): overwrite in place or append. -/
def dictSetJ (d : List (String × JVal)) (k : String) (v : JVal) :
    List (String × JVal) :=
  if d.any (fun p => p.1 == k) then
    d.map (fun p => if p.1 == k then (k, v) else p)
  else
    d ++ [(k, v)]

/-- A raw call to the set-absolute-position service, as the voluptuous schema
sees it: the three keys the schema knows, each possibly absent.  Numeric
values are taken after the host validator's `Coerce(int)` step. -/
structure AbsPosCall where
  entity_id : Option (List String)
  absolute_position : Option Int
  width : Option Int
deriving DecidableEq, Repr

/-- The host platform's `cv.positive_int` validator (an integer with
`Range(min=0)`, so zero is allowed). -/
def positive_int (n : Int) : Bool := decide (0 ≤ n)

/-- `SET_ABSOLUTE_POSITION_SCHEMA` (lines 40–44): it extends `CALL_SCHEMA`
(which requires `entity_id`) with `vol.Required(ATTR_ABSOLUTE_POSITION):
vol.All(cv.positive_int, vol.Range(max=100))` and
`vol.Optional(ATTR_WIDTH): vol.All(cv.positive_int, vol.Range(max=100))`.
Returns whether validation succeeds. -/
def SET_ABSOLUTE_POSITION_SCHEMA (c : AbsPosCall) : Bool :=
  c.entity_id.isSome &&
    (match c.absolute_position with
     | some n => positive_int n && decide (n ≤ 100)
     | none => false) &&
    (match c.width with
     | some w => positive_int w && decide (w ≤ 100)
     | none => true)

/-- One entry of the `SERVICE_TO_METHOD` table: the `"method"` value and the
`"schema"` value. -/
structure ServiceSpec where
  method : String
  schema : AbsPosCall → Bool

/-- `SERVICE_TO_METHOD` (lines 46–51): the table of custom services, keyed by
service name. -/
def SERVICE_TO_METHOD : List (String × ServiceSpec) :=
  [(SERVICE_SET_ABSOLUTE_POSITION,
    { method := SERVICE_SET_ABSOLUTE_POSITION,
      schema := SET_ABSOLUTE_POSITION_SCHEMA })]

/-- A service registration performed by `setup` via
`hass.services.register(DOMAIN, service, service_handler, schema=schema)`. -/
structure RegisteredService where
  domain : String
  name : String
  schema : AbsPosCall → Bool

/-- The service registrations performed by `setup` (lines 63–65): one per key
of `SERVICE_TO_METHOD`, with that service's schema. -/
def setup_registered_services : List RegisteredService :=
  SERVICE_TO_METHOD.map (fun p => ⟨DOMAIN, p.1, p.2.schema⟩)

/-- A message sent through the pub/sub dispatcher
(`dispatcher_send(hass, DOMAIN, data)`). -/
structure Dispatched where
  signal : String
  payload : List (String × JVal)
deriving DecidableEq, Repr

/-- `service_handler` (lines 57–61): looks the called service up in
`SERVICE_TO_METHOD`, copies the call's data, sets `data["method"]` to the
table's `"method"` value and sends it on the `DOMAIN` dispatcher signal.
`none` models the `TypeError` the lookup's `None` would cause for a service
name that is not in the table. -/
def service_handler (serviceName : String) (data : List (String × JVal)) :
    Option Dispatched :=
  (SERVICE_TO_METHOD.find? (fun p => p.1 == serviceName)).map
    (fun p => ⟨DOMAIN, dictSetJ data "method" (.str p.2.method)⟩)

/-- A concrete config entry used by witnesses and counterexamples. -/
def demoEntry : ConfigEntry :=
  { entry_id := "entry1", title := "Hall window", unique_id := "uid1",
    host := "192.168.1.2", api_key := "abcd1234" }

/-- A concrete gateway object used by witnesses and counterexamples. -/
def demoGateway : MotionGateway :=
  { mac := "aa:bb:cc:dd:ee:ff", protocol := "0.9", device_list := ["b1", "b2"] }

/-- Modelled from the spec: the host platform's `DataUpdateCoordinator` (not
part of this repository) runs the polling work at the configured interval if
and only if at least one caller is subscribed ("Polling interval. Will only
be polled if there are subscribers."). -/
def coordinatorPolls (subscribers : Nat) : Bool := decide (0 < subscribers)

/-- Concrete service-call data used by witnesses. -/
def demoServiceData : List (String × JVal) :=
  [("entity_id", JVal.strs ["cover.hall"])]

/-- The dispatch produced by the handler on `demoServiceData`. -/
def demoDispatched : Dispatched :=
  ⟨DOMAIN, dictSetJ demoServiceData "method" (.str SERVICE_SET_ABSOLUTE_POSITION)⟩

/-- A concrete valid set-absolute-position call used by witnesses. -/
def demoAbsPosCall : AbsPosCall :=
  { entity_id := some ["cover.hall"], absolute_position := some 50,
    width := some 20 }

/-- Concrete per-entry data used by witnesses. -/
def demoEntryData : EntryData :=
  { gateway := demoGateway,
    coordinator := { name := "Hall window", update_interval_seconds := 900 } }

/-- A concrete domain-data state holding the multicast listener and one
config entry, used by witnesses. -/
def demoUnloadState : MBState :=
  { multicast := some 0, entries := [("entry1", demoEntryData)],
    nextListenerId := 1 }

/-! ## Theorems settling the claims -/

/-- Folding the blind-update loop produces `acc` followed by one blind update
per device, in `device_list` order. -/
lemma foldl_blind_eq (l : List String) (acc : List UpdateCall) :
    l.foldl (fun acc blind => acc ++ [UpdateCall.blind blind]) acc =
      acc ++ l.map UpdateCall.blind := by
  induction l generalizing acc with
  | nil => simp
  | cons hd tl ih => simp [List.foldl, ih]

/-- C1: if the synchronous update call raises a socket-level timeout, the
update method raises the host's asynchronous `TimeoutError` with the socket
timeout as its cause; any other exception propagates unmodified. -/
theorem claim_C1 (g : MotionGateway) (r : Except PyExc Unit) :
    (r = .error PyExc.socketTimeout →
      (async_update_data g r).result =
        .error (PyExc.asyncioTimeout .socketTimeout)) ∧
    (∀ e : PyExc, e ≠ PyExc.socketTimeout → r = .error e →
      (async_update_data g r).result = .error e) := by
  constructor
  · rintro rfl
    rfl
  · rintro e he rfl
    cases e <;> simp_all [async_update_data]

/-- Witness for C1 at a socket timeout and at an unrelated exception. -/
theorem claim_C1_witness :
    (async_update_data demoGateway (.error PyExc.socketTimeout)).result =
      .error (PyExc.asyncioTimeout .socketTimeout) ∧
    (async_update_data demoGateway (.error (PyExc.other 7))).result =
      .error (PyExc.other 7) :=
  ⟨(claim_C1 demoGateway (.error PyExc.socketTimeout)).1 rfl,
   (claim_C1 demoGateway (.error (PyExc.other 7))).2 (PyExc.other 7)
     (by decide) rfl⟩

/-- C10: every poll submits exactly one executor job, and that job calls the
gateway's `Update` first and then `Update` once per blind of the gateway's
device list, in order. -/
theorem claim_C10 (g : MotionGateway) (r : Except PyExc Unit) :
    (async_update_data g r).executorJobs =
      [UpdateCall.gateway :: g.device_list.map UpdateCall.blind] := by
  simp [async_update_data, update_gateway, foldl_blind_eq]

/-- C5: every successful entry setup constructs the coordinator with the
entry's title and a fixed 900-second update interval, and the host
coordinator polls exactly when a subscriber is present. -/
theorem claim_C5 (st : MBState) (e : ConfigEntry) (g : MotionGateway) :
    (async_setup_entry st e (some g)).coordinator =
      some { name := e.title, update_interval_seconds := 900 } ∧
    (∀ n : Nat, coordinatorPolls n = true ↔ 0 < n) := by
  constructor
  · cases hm : st.multicast <;> simp [async_setup_entry, hm]
  · intro n
    simp [coordinatorPolls]

/-- C7: every successful entry setup registers exactly one device record, with
the gateway's MAC as network connection, `(DOMAIN, unique_id)` as identifier,
the fixed manufacturer, model `"Wi-Fi bridge"`, the entry title as name and
the gateway protocol as software version. -/
theorem claim_C7 (st : MBState) (e : ConfigEntry) (g : MotionGateway) :
    (async_setup_entry st e (some g)).deviceRecords =
      [{ config_entry_id := e.entry_id,
         connections := [(CONNECTION_NETWORK_MAC, g.mac)],
         identifiers := [(DOMAIN, e.unique_id)],
         manufacturer := MANUFACTURER,
         name := e.title,
         model := "Wi-Fi bridge",
         sw_version := g.protocol }] := by
  cases hm : st.multicast <;> simp [async_setup_entry, hm]

/-- C6: exactly one custom service is in the registration table, and every
dispatch the handler produces goes out on the `DOMAIN` signal with the call's
data extended by a `"method"` key holding the called service's name. -/
theorem claim_C6 :
    SERVICE_TO_METHOD.length = 1 ∧
    ∀ (name : String) (data : List (String × JVal)) (d : Dispatched),
      service_handler name data = some d →
        d.signal = DOMAIN ∧ d.payload = dictSetJ data "method" (.str name) := by
  refine ⟨rfl, ?_⟩
  intro name data d h
  simp only [service_handler, SERVICE_TO_METHOD, List.find?] at h
  cases hk : (SERVICE_SET_ABSOLUTE_POSITION == name) with
  | false => simp [hk] at h
  | true =>
      rw [hk] at h
      simp only [Option.map_some] at h
      cases h
      exact ⟨rfl, by rw [eq_of_beq hk]⟩

/-- Witness for C6 at a concrete call. -/
theorem claim_C6_witness :
    demoDispatched.signal = DOMAIN ∧
    demoDispatched.payload =
      dictSetJ demoServiceData "method" (.str SERVICE_SET_ABSOLUTE_POSITION) :=
  claim_C6.2 SERVICE_SET_ABSOLUTE_POSITION demoServiceData demoDispatched
    (by rfl)

/-- C8: the set-absolute-position schema accepts a call only if
`absolute_position` is present with an integer value between 0 and 100, and
`width`, when present, has an integer value between 0 and 100. -/
theorem claim_C8 (c : AbsPosCall) (h : SET_ABSOLUTE_POSITION_SCHEMA c = true) :
    (∃ n, c.absolute_position = some n ∧ 0 ≤ n ∧ n ≤ 100) ∧
    (∀ w, c.width = some w → 0 ≤ w ∧ w ≤ 100) := by
  simp only [SET_ABSOLUTE_POSITION_SCHEMA, positive_int, Bool.and_eq_true] at h
  obtain ⟨⟨-, hap⟩, hw⟩ := h
  constructor
  · cases hc : c.absolute_position with
    | none => rw [hc] at hap; cases hap
    | some n =>
        rw [hc] at hap
        simp only [Bool.and_eq_true, decide_eq_true_eq] at hap
        exact ⟨n, rfl, hap.1, hap.2⟩
  · intro w hcw
    rw [hcw] at hw
    simp only [Bool.and_eq_true, decide_eq_true_eq] at hw
    exact hw

/-- Witness for C8 at a concrete accepted call. -/
theorem claim_C8_witness :
    (∃ n, demoAbsPosCall.absolute_position = some n ∧ 0 ≤ n ∧ n ≤ 100) ∧
    (∀ w, demoAbsPosCall.width = some w → 0 ≤ w ∧ w ≤ 100) :=
  claim_C8 demoAbsPosCall (by decide)

/-- C2 fails on the code: in the setup sequence where the first setup's
gateway connection fails (raising `ConfigEntryNotReady`) and the retried
setup succeeds, `Start_listen` is invoked twice — the failed setup stored no
entry record, so the retry again sees a domain dictionary holding only the
listener key and starts the already-running listener a second time. -/
theorem claim_C2_bug_eval :
    (runSetups mbInit [(demoEntry, none), (demoEntry, some demoGateway)]).2
      = 2 := by decide

/-- C4 is false as stated: the setup path does raise an exception of its own —
when the gateway connection fails, `async_setup_entry` raises
`ConfigEntryNotReady` (line 99), here at a concrete input. -/
theorem claim_C4_counterexample :
    (async_setup_entry mbInit demoEntry none).raisedNotReady = true := by
  decide

/-- C4 amended: besides the timeout translation in the update method, the only
exception this file raises is `ConfigEntryNotReady`, raised by setup exactly
when the gateway connection fails; the update method passes every
non-socket-timeout outcome through unmodified, unload (called on a stored
entry while the listener is stored) raises nothing, and the service handler
raises nothing for the registered service. -/
theorem claim_C4_amended :
    (∀ (st : MBState) (e : ConfigEntry),
      (async_setup_entry st e none).raisedNotReady = true) ∧
    (∀ (st : MBState) (e : ConfigEntry) (g : MotionGateway),
      (async_setup_entry st e (some g)).raisedNotReady = false) ∧
    (∀ (g : MotionGateway) (r : Except PyExc Unit),
      r ≠ .error PyExc.socketTimeout → (async_update_data g r).result = r) ∧
    (∀ (st : MBState) (e : String) (pr : List Bool),
      st.multicast.isSome = true →
      st.entries.any (fun p => p.1 == e) = true →
      (async_unload_entry st e pr).isSome = true) ∧
    (∀ data, (service_handler SERVICE_SET_ABSOLUTE_POSITION data).isSome
      = true) := by
  refine ⟨?_, ?_, ?_, ?_, ?_⟩
  · intro st e
    cases hm : st.multicast <;> simp [async_setup_entry, hm]
  · intro st e g
    cases hm : st.multicast <;> simp [async_setup_entry, hm]
  · intro g r hr
    cases r with
    | ok u => rfl
    | error e =>
        cases e with
        | socketTimeout => exact absurd rfl hr
        | asyncioTimeout c => rfl
        | configEntryNotReady => rfl
        | other t => rfl
  · intro st e pr hmc hmem
    obtain ⟨m, hm⟩ := Option.isSome_iff_exists.mp hmc
    have hlen : 1 ≤ st.entries.length := by
      cases hes : st.entries with
      | nil => simp [hes] at hmem
      | cons hd tl => simp [hes]
    cases hall : pr.all id with
    | false =>
        have hne : domainLen st ≠ 1 := by
          have hdl : domainLen st = 1 + st.entries.length := by
            simp [domainLen, hm]
          omega
        simp [async_unload_entry, hall, hne]
    | true =>
        have hpop : dictPop st.entries e =
            some (st.entries.filter (fun p => p.1 != e)) := by
          simp [dictPop, hmem]
        simp only [async_unload_entry, hall, hpop, Option.map_some', hm,
          if_true]
        split <;> rfl
  · intro data
    simp [service_handler, SERVICE_TO_METHOD, List.find?]

/-- Witness for C4's amended theorem at concrete inputs. -/
theorem claim_C4_amended_witness :
    (async_setup_entry mbInit demoEntry none).raisedNotReady = true ∧
    (async_update_data demoGateway (.ok ())).result = .ok () ∧
    (async_unload_entry demoUnloadState "entry1" [false]).isSome = true :=
  ⟨claim_C4_amended.1 mbInit demoEntry,
   claim_C4_amended.2.2.1 demoGateway (.ok ())
     (by intro h; exact Except.noConfusion h),
   claim_C4_amended.2.2.2.1 demoUnloadState "entry1" [false] (by decide)
     (by decide)⟩

/-- Filtering out a key that does not occur among an association list's keys
leaves the list unchanged. -/
lemma filter_keys_eq_self (tl : List (String × EntryData)) (k : String)
    (hk : k ∉ tl.map Prod.fst) : tl.filter (fun p => p.1 != k) = tl := by
  apply List.filter_eq_self.mpr
  intro p hp
  simp only [bne_iff_ne, ne_eq]
  intro he
  exact hk (he ▸ List.mem_map_of_mem Prod.fst hp)

/-- Unfolding `runUnloads` one invocation at a time. -/
lemma runUnloads_cons (st : MBState) (e : String) (pr : List Bool)
    (rest : List (String × List Bool)) :
    runUnloads st ((e, pr) :: rest) =
      match async_unload_entry st e pr with
      | none => none
      | some r =>
          (runUnloads r.state rest).map
            (fun p => (p.1, r.stopListenCalls + p.2)) := rfl

/-- Unloading every stored entry, each with all platform unloads succeeding,
invokes `Stop_listen` exactly once in total and leaves a domain dictionary
without the listener key and without entry records. -/
lemma runUnloads_all_ok (m nid : Nat) :
    ∀ l : List (String × EntryData), l ≠ [] → (l.map Prod.fst).Nodup →
      runUnloads ⟨some m, l, nid⟩ (l.map (fun p => (p.1, [true]))) =
        some (⟨none, [], nid⟩, 1) := by
  intro l
  induction l with
  | nil => intro hne _; exact absurd rfl hne
  | cons hd tl ih =>
      intro _ hnd
      simp only [List.map_cons, List.nodup_cons] at hnd
      cases tl with
      | nil =>
          simp [runUnloads, async_unload_entry, dictPop, domainLen]
      | cons t ts =>
          have hfil : (t :: ts).filter (fun p => p.1 != hd.1) = t :: ts :=
            filter_keys_eq_self _ _ hnd.1
          have hrest := ih (by simp) hnd.2
          have hstep : async_unload_entry ⟨some m, hd :: t :: ts, nid⟩
              hd.1 [true] =
              some { state := ⟨some m, t :: ts, nid⟩, stopListenCalls := 0,
                     unload_ok := true } := by
            simp [async_unload_entry, dictPop, domainLen, hfil]
          rw [List.map_cons, runUnloads_cons, hstep]
          simp only [hrest]
          simp

/-- C3: unloading the last remaining entry successfully stops the listener
and removes it from the domain data; across a successful teardown of all
stored entries, `Stop_listen` runs exactly once, on the last unload. -/
theorem claim_C3 :
    (∀ (st : MBState) (m : Nat) (e : String) (d : EntryData) (pr : List Bool),
      st.multicast = some m → st.entries = [(e, d)] → pr.all id = true →
      async_unload_entry st e pr =
        some { state := { st with multicast := none, entries := [] },
               stopListenCalls := 1, unload_ok := true }) ∧
    (∀ (m nid : Nat) (l : List (String × EntryData)), l ≠ [] →
      (l.map Prod.fst).Nodup →
      runUnloads ⟨some m, l, nid⟩ (l.map (fun p => (p.1, [true]))) =
        some (⟨none, [], nid⟩, 1)) := by
  constructor
  · intro st m e d pr hm he hall
    simp [async_unload_entry, hall, dictPop, he, domainLen, hm]
  · exact runUnloads_all_ok

/-- Witness for C3: one stored entry, successful unload, one stop. -/
theorem claim_C3_witness :
    async_unload_entry demoUnloadState "entry1" [true] =
      some { state := { multicast := none, entries := [],
                        nextListenerId := 1 },
             stopListenCalls := 1, unload_ok := true } :=
  claim_C3.1 demoUnloadState 0 "entry1" demoEntryData [true] rfl rfl rfl

/-- C9: when some platform unload fails, `async_unload_entry` returns false
and leaves the domain data (the entry's gateway and coordinator record
included) unchanged; the entry record disappears only when every platform
unload succeeded. -/
theorem claim_C9 (st : MBState) (e : String) (pr : List Bool)
    (hmc : st.multicast.isSome = true)
    (hmem : st.entries.any (fun p => p.1 == e) = true) :
    (pr.all id = false →
      async_unload_entry st e pr =
        some { state := st, stopListenCalls := 0, unload_ok := false }) ∧
    (∀ r, async_unload_entry st e pr = some r →
      r.state.entries.any (fun p => p.1 == e) = false →
      pr.all id = true) := by
  obtain ⟨m, hm⟩ := Option.isSome_iff_exists.mp hmc
  have hlen : 1 ≤ st.entries.length := by
    cases hes : st.entries with
    | nil => simp [hes] at hmem
    | cons hd tl => simp [hes]
  have hne : domainLen st ≠ 1 := by
    have hdl : domainLen st = 1 + st.entries.length := by
      simp [domainLen, hm]
    omega
  have h1 : pr.all id = false →
      async_unload_entry st e pr =
        some { state := st, stopListenCalls := 0, unload_ok := false } := by
    intro hall
    simp [async_unload_entry, hall, hne]
  refine ⟨h1, ?_⟩
  intro r hr habs
  cases hall : pr.all id with
  | true => rfl
  | false =>
      rw [h1 hall] at hr
      injection hr with h
      subst h
      have habs2 : st.entries.any (fun p => p.1 == e) = false := habs
      rw [hmem] at habs2
      cases habs2

/-- Witness for C9 at a concrete failed unload. -/
theorem claim_C9_witness :
    async_unload_entry demoUnloadState "entry1" [false] =
      some { state := demoUnloadState, stopListenCalls := 0,
             unload_ok := false } :=
  (claim_C9 demoUnloadState "entry1" [false] rfl (by decide)).1 rfl

end MotionBlinds
